import Mathlib

/-!
Shallow embedding of `src/server.js` (CwaWeather-backend): the forecast
normalizer inside `getWeatherByCity`, the request handler's control flow,
and the `/api/cities` handler, together with theorems about the claims of
the specification.

JavaScript semantics modelled explicitly:
* indexing an array out of bounds yields `undefined`, and reading a
  property of `undefined` throws a `TypeError`; a throw inside the handler
  is caught by the surrounding `try`/`catch`.  Fallible computations are
  therefore embedded in `Except String`.
* `x || y` on strings falls back on `undefined` and on the empty string.
-/

/-- `time[i].parameter` : the upstream parameter object of one period. -/
structure Parameter where
  parameterName : String
  deriving DecidableEq, Repr

/-- One entry of an element's `time` array: a forecast period. -/
structure TimePeriod where
  startTime : String
  endTime : String
  parameter : Parameter
  deriving DecidableEq, Repr

/-- One upstream weather element: a named parallel time series. -/
structure WeatherElement where
  elementName : String
  time : List TimePeriod
  deriving DecidableEq, Repr

/-- One entry of `records.location`. -/
structure LocationData where
  locationName : String
  weatherElement : List WeatherElement
  deriving DecidableEq, Repr

/-- `response.data.records` of the upstream payload. -/
structure Records where
  datasetDescription : String
  location : List LocationData
  deriving DecidableEq, Repr

/-- `response.data` of a successful upstream call. -/
structure UpstreamData where
  records : Records
  deriving DecidableEq, Repr

/-- One normalized forecast record (lines 88-97 of `server.js`). -/
structure Forecast where
  startTime : String
  endTime : String
  weather : String
  rain : String
  minTemp : String
  maxTemp : String
  comfort : String
  windSpeed : String
  deriving DecidableEq, Repr

/-- The record as initialized for period `i` from `weatherElements[0].time[i]`:
start/end times copied, all six value fields empty strings. -/
def initForecast (tp : TimePeriod) : Forecast :=
  { startTime := tp.startTime
    endTime := tp.endTime
    weather := ""
    rain := ""
    minTemp := ""
    maxTemp := ""
    comfort := ""
    windSpeed := "" }

/-- The `switch (element.elementName)` of lines 101-120: assign the period's
`parameterName` into the field selected by the element code, `%` appended for
`PoP`, `°C` appended for `MinT`/`MaxT`, unrecognized codes fall through. -/
def applyElement (forecast : Forecast) (elementName parameterName : String) : Forecast :=
  if elementName = "Wx" then { forecast with weather := parameterName }
  else if elementName = "PoP" then { forecast with rain := parameterName ++ "%" }
  else if elementName = "MinT" then { forecast with minTemp := parameterName ++ "°C" }
  else if elementName = "MaxT" then { forecast with maxTemp := parameterName ++ "°C" }
  else if elementName = "CI" then { forecast with comfort := parameterName }
  else if elementName = "WS" then { forecast with windSpeed := parameterName }
  else forecast

/-- The `weatherElements.forEach` body for one period index `i`
(lines 99-121): `element.time[i].parameter` is read for every element, so an
element whose series does not reach index `i` makes the callback throw a
`TypeError` (`element.time[i]` is `undefined`). -/
def buildForecast (i : Nat) : List WeatherElement → Forecast → Except String Forecast
  | [], acc => .ok acc
  | e :: rest, acc =>
    match e.time[i]? with
    | none => .error "TypeError: Cannot read properties of undefined (reading parameter)"
    | some tp => buildForecast i rest (applyElement acc e.elementName tp.parameter.parameterName)

/-- The time periods of the first element paired with their indices,
mirroring `for (let i = 0; i < timeCount; i++)` over `weatherElements[0].time`. -/
def enumPeriods : Nat → List TimePeriod → List (Nat × TimePeriod)
  | _, [] => []
  | n, tp :: rest => (n, tp) :: enumPeriods (n + 1) rest

/-- The `for` loop of lines 87-124: one forecast record pushed per period;
the first throw aborts the whole loop. -/
def buildLoop (wes : List WeatherElement) : List (Nat × TimePeriod) → Except String (List Forecast)
  | [] => .ok []
  | p :: rest =>
    match buildForecast p.1 wes (initForecast p.2) with
    | .error msg => .error msg
    | .ok f =>
      match buildLoop wes rest with
      | .error msg => .error msg
      | .ok fs => .ok (f :: fs)

/-- The normalizer of lines 84-124: period count and start/end times come from
the first element's series; with an empty element collection,
`weatherElements[0]` is `undefined` and reading `.time` throws. -/
def normalizeForecasts : List WeatherElement → Except String (List Forecast)
  | [] => .error "TypeError: Cannot read properties of undefined (reading time)"
  | first :: rest => buildLoop (first :: rest) (enumPeriods 0 first.time)

/-- The normalized payload of a successful response (lines 76-81). -/
structure WeatherData where
  city : String
  updateTimeDescription : String
  forecasts : List Forecast
  deriving DecidableEq, Repr

/-- The upstream error body `error.response.data`: an optional `message`
property plus the rest of the body, kept opaque. -/
structure ErrData where
  message : Option String
  rest : String
  deriving DecidableEq, Repr

/-- `error.response` of a failed upstream call: HTTP status and raw body. -/
structure UpstreamErrorResponse where
  status : Nat
  data : ErrData
  deriving DecidableEq, Repr

/-- Outcome of the `axios.get` call: success, an HTTP error response
(axios rejects with `error.response` set on a non-2xx status), or a failure
with no response at all (network error or similar). -/
inductive UpstreamOutcome where
  | success (data : UpstreamData)
  | httpError (resp : UpstreamErrorResponse)
  | networkError
  deriving DecidableEq, Repr

/-- A JSON response body sent by the handler. -/
inductive ResBody where
  | err (error message : String)
  | errDetails (error message : String) (details : ErrData)
  | ok (data : WeatherData)
  deriving DecidableEq, Repr

/-- An HTTP response: status code plus JSON body. -/
structure HttpResponse where
  status : Nat
  body : ResBody
  deriving DecidableEq, Repr

/-- Result of running the handler: the response sent, plus whether control
reached the `axios.get` call (false iff an early `return` fired before it). -/
structure HandlerResult where
  response : HttpResponse
  upstreamCalled : Bool
  deriving DecidableEq, Repr

/-- JavaScript truthiness of an optional string (`undefined` and `""` are
falsy), used by `if (!CWA_API_KEY)`. -/
def truthy : Option String → Bool
  | none => false
  | some s => !(s = "")

/-- `error.response.data.message || "無法取得天氣資料"` (line 137). -/
def messageOrFallback : Option String → String
  | none => "無法取得天氣資料"
  | some s => if s = "" then "無法取得天氣資料" else s

/-- The handler `getWeatherByCity` (lines 30-148).  `cityName` is the path
parameter (a string; `!cityName` is true only for `""`), `apiKey` the
`CWA_API_KEY` environment variable, `upstream` the outcome the `axios.get`
call would have.  A throw out of the normalizer is a caught exception with no
`.response`, hence the generic 500 branch. -/
def getWeatherByCity (cityName : String) (apiKey : Option String)
    (upstream : UpstreamOutcome) : HandlerResult :=
  if cityName = "" then
    ⟨⟨400, .err "參數錯誤" "請提供城市名稱參數"⟩, false⟩
  else if !(truthy apiKey) then
    ⟨⟨500, .err "伺服器設定錯誤" "請在 .env 檔案中設定 CWA_API_KEY"⟩, false⟩
  else
    match upstream with
    | .success data =>
      match data.records.location.head? with
      | none =>
        ⟨⟨404, .err "查無資料"
            ("無法取得 " ++ cityName ++ " 天氣資料，請確認城市名稱是否正確")⟩, true⟩
      | some locationData =>
        match normalizeForecasts locationData.weatherElement with
        | .error _ =>
          ⟨⟨500, .err "伺服器錯誤" "無法取得天氣資料，請稍後再試"⟩, true⟩
        | .ok fs =>
          ⟨⟨200, .ok ⟨locationData.locationName,
              data.records.datasetDescription, fs⟩⟩, true⟩
    | .httpError resp =>
      ⟨⟨resp.status,
        .errDetails "CWA API 錯誤" (messageOrFallback resp.data.message) resp.data⟩, true⟩
    | .networkError =>
      ⟨⟨500, .err "伺服器錯誤" "無法取得天氣資料，請稍後再試"⟩, true⟩

/-- The `AVAILABLE_CITIES` constant (lines 19-24). -/
def AVAILABLE_CITIES : List String :=
  ["臺北市", "新北市", "桃園市", "臺中市", "臺南市", "高雄市",
   "基隆市", "新竹市", "新竹縣", "苗栗縣", "彰化縣", "南投縣",
   "雲林縣", "嘉義市", "嘉義縣", "屏東縣", "宜蘭縣", "花蓮縣",
   "臺東縣", "澎湖縣", "金門縣", "連江縣"]

/-- Body returned by `GET /api/cities` (lines 180-185). -/
structure CitiesResponse where
  success : Bool
  data : List String
  deriving DecidableEq, Repr

/-- The `/api/cities` handler: a constant response. -/
def citiesHandler : CitiesResponse :=
  { success := true, data := AVAILABLE_CITIES }

/-! ### Specification helpers -/

/-- The last element of the collection carrying a given element code
(`none` when no element carries it).  The `switch` runs left to right over the
collection, so this is the element whose assignment survives. -/
def lastMatch (code : String) : List WeatherElement → Option WeatherElement
  | [] => none
  | e :: rest =>
    match lastMatch code rest with
    | some e' => some e'
    | none => if e.elementName = code then some e else none

/-- Placeholder period used only to give `pvalue` a total type. -/
def defaultPeriod : TimePeriod :=
  { startTime := "", endTime := "", parameter := { parameterName := "" } }

/-- `element.time[i].parameter.parameterName`, as a total function. -/
def pvalue (e : WeatherElement) (i : Nat) : String :=
  ((e.time[i]?).getD defaultPeriod).parameter.parameterName

/-- A numeric string: non-empty and all decimal digits. -/
def isNumericString (s : String) : Bool :=
  !(s = "") && s.toList.all Char.isDigit

/-! ### Lemmas about `applyElement` -/

theorem applyElement_weather (f : Forecast) (n v : String) :
    (applyElement f n v).weather = if n = "Wx" then v else f.weather := by
  unfold applyElement
  split_ifs <;> simp_all

theorem applyElement_rain (f : Forecast) (n v : String) :
    (applyElement f n v).rain = if n = "PoP" then v ++ "%" else f.rain := by
  unfold applyElement
  split_ifs <;> simp_all

theorem applyElement_minTemp (f : Forecast) (n v : String) :
    (applyElement f n v).minTemp = if n = "MinT" then v ++ "°C" else f.minTemp := by
  unfold applyElement
  split_ifs <;> simp_all

theorem applyElement_maxTemp (f : Forecast) (n v : String) :
    (applyElement f n v).maxTemp = if n = "MaxT" then v ++ "°C" else f.maxTemp := by
  unfold applyElement
  split_ifs <;> simp_all

theorem applyElement_comfort (f : Forecast) (n v : String) :
    (applyElement f n v).comfort = if n = "CI" then v else f.comfort := by
  unfold applyElement
  split_ifs <;> simp_all

theorem applyElement_windSpeed (f : Forecast) (n v : String) :
    (applyElement f n v).windSpeed = if n = "WS" then v else f.windSpeed := by
  unfold applyElement
  split_ifs <;> simp_all

theorem applyElement_startTime (f : Forecast) (n v : String) :
    (applyElement f n v).startTime = f.startTime := by
  unfold applyElement
  split_ifs <;> rfl

theorem applyElement_endTime (f : Forecast) (n v : String) :
    (applyElement f n v).endTime = f.endTime := by
  unfold applyElement
  split_ifs <;> rfl

theorem lastMatch_mem {code : String} {l : List WeatherElement} {e : WeatherElement}
    (h : lastMatch code l = some e) : e ∈ l ∧ e.elementName = code := by
  induction l with
  | nil => simp [lastMatch] at h
  | cons x rest ih =>
    unfold lastMatch at h
    cases hlm : lastMatch code rest with
    | some e' =>
      rw [hlm] at h
      simp only [Option.some_inj] at h
      subst h
      obtain ⟨hmem, hname⟩ := ih hlm
      exact ⟨List.mem_cons_of_mem x hmem, hname⟩
    | none =>
      rw [hlm] at h
      by_cases hx : x.elementName = code
      · simp [hx] at h
        subst h
        exact ⟨List.mem_cons_self x rest, hx⟩
      · simp [hx] at h

/-! ### Lemmas about `buildForecast` -/

theorem buildForecast_ok_bound {i : Nat} :
    ∀ {l : List WeatherElement} {acc f : Forecast},
      buildForecast i l acc = .ok f → ∀ e ∈ l, i < e.time.length := by
  intro l
  induction l with
  | nil => intro acc f _ e he; simp at he
  | cons x rest ih =>
    intro acc f h e he
    unfold buildForecast at h
    cases hx : x.time[i]? with
    | none => rw [hx] at h; exact absurd h (by simp)
    | some tp =>
      rw [hx] at h
      rcases List.mem_cons.mp he with he | he
      · rw [he]
        exact (List.getElem?_eq_some.mp hx).1
      · exact ih h e he

theorem buildForecast_ok_exists {i : Nat} :
    ∀ {l : List WeatherElement} (acc : Forecast),
      (∀ e ∈ l, i < e.time.length) → ∃ f, buildForecast i l acc = .ok f := by
  intro l
  induction l with
  | nil => intro acc _; exact ⟨acc, rfl⟩
  | cons x rest ih =>
    intro acc hlen
    have hx : i < x.time.length := hlen x (List.mem_cons_self x rest)
    unfold buildForecast
    rw [List.getElem?_eq_getElem hx]
    exact ih _ (fun e he => hlen e (List.mem_cons_of_mem x he))

/-- The value every field of a successful record takes: determined by the last
element of the collection carrying the field's code, falling back to the
accumulator's value when no element carries it.  `proj`/`code`/`tr` range over
the six field/code/transform triples of the `switch`. -/
theorem buildForecast_proj (proj : Forecast → String) (code : String) (tr : String → String)
    (hap : ∀ f n v, proj (applyElement f n v) = if n = code then tr v else proj f)
    {i : Nat} :
    ∀ {l : List WeatherElement} {acc f : Forecast},
      buildForecast i l acc = .ok f →
      proj f = match lastMatch code l with
               | none => proj acc
               | some e => tr (pvalue e i) := by
  intro l
  induction l with
  | nil =>
    intro acc f h
    simp only [buildForecast, Except.ok.injEq] at h
    subst h
    simp [lastMatch]
  | cons x rest ih =>
    intro acc f h
    unfold buildForecast at h
    cases hx : x.time[i]? with
    | none => rw [hx] at h; exact absurd h (by simp)
    | some tp =>
      rw [hx] at h
      have hrec := ih h
      unfold lastMatch
      cases hlm : lastMatch code rest with
      | some e' => rw [hlm] at hrec; simpa using hrec
      | none =>
        rw [hlm] at hrec
        simp only at hrec
        rw [hrec, hap]
        by_cases hc : x.elementName = code
        · simp only [hc, if_pos rfl]
          have : pvalue x i = tp.parameter.parameterName := by
            unfold pvalue; rw [hx]; rfl
          simp [this]
        · simp [hc]

theorem buildForecast_times {i : Nat} :
    ∀ {l : List WeatherElement} {acc f : Forecast},
      buildForecast i l acc = .ok f →
      f.startTime = acc.startTime ∧ f.endTime = acc.endTime := by
  intro l
  induction l with
  | nil =>
    intro acc f h
    simp only [buildForecast, Except.ok.injEq] at h
    subst h
    exact ⟨rfl, rfl⟩
  | cons x rest ih =>
    intro acc f h
    unfold buildForecast at h
    cases hx : x.time[i]? with
    | none => rw [hx] at h; exact absurd h (by simp)
    | some tp =>
      rw [hx] at h
      obtain ⟨h1, h2⟩ := ih h
      exact ⟨h1.trans (applyElement_startTime ..), h2.trans (applyElement_endTime ..)⟩

/-! ### Lemmas about `enumPeriods`, `buildLoop` and `normalizeForecasts` -/

theorem enumPeriods_length (n : Nat) (l : List TimePeriod) :
    (enumPeriods n l).length = l.length := by
  induction l generalizing n with
  | nil => rfl
  | cons tp rest ih => simp [enumPeriods, ih]

theorem enumPeriods_get (n : Nat) (l : List TimePeriod) (j : Nat) (hj : j < l.length)
    (hj2 : j < (enumPeriods n l).length) :
    (enumPeriods n l).get ⟨j, hj2⟩ = (n + j, l.get ⟨j, hj⟩) := by
  induction l generalizing n j with
  | nil => simp at hj
  | cons tp rest ih =>
    cases j with
    | zero => simp [enumPeriods]
    | succ k =>
      have hk : k < rest.length := Nat.lt_of_succ_lt_succ hj
      have hk2 : k < (enumPeriods (n + 1) rest).length := by
        rw [enumPeriods_length]; exact hk
      have := ih (n + 1) k hk hk2
      simp only [enumPeriods, List.get_cons_succ]
      rw [this]
      simp
      omega

theorem enumPeriods_mem {n : Nat} {l : List TimePeriod} {p : Nat × TimePeriod}
    (h : p ∈ enumPeriods n l) : n ≤ p.1 ∧ p.1 - n < l.length := by
  induction l generalizing n with
  | nil => simp [enumPeriods] at h
  | cons tp rest ih =>
    unfold enumPeriods at h
    rcases List.mem_cons.mp h with h | h
    · subst h; simp
    · have := ih h
      simp only [List.length_cons]
      omega

theorem buildLoop_ok_length {wes : List WeatherElement} :
    ∀ {ps : List (Nat × TimePeriod)} {fs : List Forecast},
      buildLoop wes ps = .ok fs → fs.length = ps.length := by
  intro ps
  induction ps with
  | nil =>
    intro fs h
    simp only [buildLoop, Except.ok.injEq] at h
    subst h; rfl
  | cons p rest ih =>
    intro fs h
    unfold buildLoop at h
    cases h1 : buildForecast p.1 wes (initForecast p.2) with
    | error msg => rw [h1] at h; exact absurd h (by simp)
    | ok f =>
      rw [h1] at h
      cases h2 : buildLoop wes rest with
      | error msg => rw [h2] at h; exact absurd h (by simp)
      | ok fs0 =>
        rw [h2] at h
        simp only [Except.ok.injEq] at h
        subst h
        simp [ih h2]

theorem buildLoop_ok_get {wes : List WeatherElement} :
    ∀ {ps : List (Nat × TimePeriod)} {fs : List Forecast},
      buildLoop wes ps = .ok fs →
      ∀ (j : Nat) (hj : j < ps.length) (hj2 : j < fs.length),
        buildForecast (ps.get ⟨j, hj⟩).1 wes (initForecast (ps.get ⟨j, hj⟩).2)
          = .ok (fs.get ⟨j, hj2⟩) := by
  intro ps
  induction ps with
  | nil => intro fs _ j hj; simp at hj
  | cons p rest ih =>
    intro fs h j hj hj2
    unfold buildLoop at h
    cases h1 : buildForecast p.1 wes (initForecast p.2) with
    | error msg => rw [h1] at h; exact absurd h (by simp)
    | ok f =>
      rw [h1] at h
      cases h2 : buildLoop wes rest with
      | error msg => rw [h2] at h; exact absurd h (by simp)
      | ok fs0 =>
        rw [h2] at h
        simp only [Except.ok.injEq] at h
        subst h
        cases j with
        | zero => simpa using h1
        | succ k =>
          have hk : k < rest.length := Nat.lt_of_succ_lt_succ hj
          have hk2 : k < fs0.length := Nat.lt_of_succ_lt_succ hj2
          simpa using ih h2 k hk hk2

theorem buildLoop_ok_exists {wes : List WeatherElement} :
    ∀ {ps : List (Nat × TimePeriod)},
      (∀ p ∈ ps, ∃ f, buildForecast p.1 wes (initForecast p.2) = .ok f) →
      ∃ fs, buildLoop wes ps = .ok fs := by
  intro ps
  induction ps with
  | nil => intro _; exact ⟨[], rfl⟩
  | cons p rest ih =>
    intro hall
    obtain ⟨f, hf⟩ := hall p (List.mem_cons_self p rest)
    obtain ⟨fs, hfs⟩ := ih (fun q hq => hall q (List.mem_cons_of_mem p hq))
    exact ⟨f :: fs, by unfold buildLoop; rw [hf, hfs]⟩

theorem normalizeForecasts_ok_spec {first : WeatherElement} {rest : List WeatherElement}
    {fs : List Forecast} (h : normalizeForecasts (first :: rest) = .ok fs) :
    fs.length = first.time.length ∧
    ∀ (j : Nat) (hj : j < fs.length) (hj2 : j < first.time.length),
      buildForecast j (first :: rest) (initForecast (first.time.get ⟨j, hj2⟩))
        = .ok (fs.get ⟨j, hj⟩) := by
  unfold normalizeForecasts at h
  have hlen : fs.length = first.time.length := by
    rw [buildLoop_ok_length h, enumPeriods_length]
  refine ⟨hlen, ?_⟩
  intro j hj hj2
  have hjp : j < (enumPeriods 0 first.time).length := by
    rw [enumPeriods_length]; exact hj2
  have hget := buildLoop_ok_get h j hjp hj
  rw [enumPeriods_get 0 first.time j hj2 hjp] at hget
  simpa using hget

theorem normalizeForecasts_ok_exists {first : WeatherElement} {rest : List WeatherElement}
    (halign : ∀ e ∈ first :: rest, first.time.length ≤ e.time.length) :
    ∃ fs, normalizeForecasts (first :: rest) = .ok fs := by
  unfold normalizeForecasts
  apply buildLoop_ok_exists
  intro p hp
  have hlt : p.1 < first.time.length := by
    have := enumPeriods_mem hp
    omega
  exact buildForecast_ok_exists _ (fun e he => Nat.lt_of_lt_of_le hlt (halign e he))

/-- Membership in a successful output, by index. -/
theorem normalizeForecasts_mem_spec {first : WeatherElement} {rest : List WeatherElement}
    {fs : List Forecast} (h : normalizeForecasts (first :: rest) = .ok fs)
    {f : Forecast} (hf : f ∈ fs) :
    ∃ (j : Nat) (hj2 : j < first.time.length),
      buildForecast j (first :: rest) (initForecast (first.time.get ⟨j, hj2⟩)) = .ok f := by
  obtain ⟨hlen, hspec⟩ := normalizeForecasts_ok_spec h
  obtain ⟨j, hget⟩ := List.mem_iff_get.mp hf
  have hj2 : j.1 < first.time.length := by omega
  refine ⟨j.1, hj2, ?_⟩
  rw [hspec j.1 j.isLt hj2, hget]

theorem lastMatch_eq_none {code : String} {l : List WeatherElement}
    (h : ∀ e ∈ l, e.elementName ≠ code) : lastMatch code l = none := by
  induction l with
  | nil => rfl
  | cons x rest ih =>
    unfold lastMatch
    rw [ih (fun e he => h e (List.mem_cons_of_mem x he))]
    simp [h x (List.mem_cons_self x rest)]

/-- In a successful output any field whose code appears on no element keeps the
empty string it was initialized with. -/
theorem normalize_field_absent (proj : Forecast → String) (code : String)
    (tr : String → String)
    (hap : ∀ f n v, proj (applyElement f n v) = if n = code then tr v else proj f)
    (hinit : ∀ tp, proj (initForecast tp) = "")
    {first : WeatherElement} {rest : List WeatherElement} {fs : List Forecast}
    (h : normalizeForecasts (first :: rest) = .ok fs)
    (habs : ∀ e ∈ first :: rest, e.elementName ≠ code)
    {f : Forecast} (hf : f ∈ fs) : proj f = "" := by
  obtain ⟨j, hj2, hbf⟩ := normalizeForecasts_mem_spec h hf
  have := buildForecast_proj proj code tr hap hbf
  rw [lastMatch_eq_none habs] at this
  simp only at this
  rw [this, hinit]

/-- In a successful output a field is either empty or carries a transformed
value of some element with the matching code. -/
theorem normalize_field_pattern (proj : Forecast → String) (code : String)
    (tr : String → String)
    (hap : ∀ f n v, proj (applyElement f n v) = if n = code then tr v else proj f)
    (hinit : ∀ tp, proj (initForecast tp) = "")
    {first : WeatherElement} {rest : List WeatherElement} {fs : List Forecast}
    (h : normalizeForecasts (first :: rest) = .ok fs)
    {f : Forecast} (hf : f ∈ fs) :
    proj f = "" ∨ ∃ e ∈ first :: rest, e.elementName = code ∧
      ∃ tp ∈ e.time, proj f = tr tp.parameter.parameterName := by
  obtain ⟨j, hj2, hbf⟩ := normalizeForecasts_mem_spec h hf
  have hproj := buildForecast_proj proj code tr hap hbf
  cases hlm : lastMatch code (first :: rest) with
  | none =>
    rw [hlm] at hproj
    simp only at hproj
    rw [hproj, hinit]
    exact Or.inl rfl
  | some e =>
    rw [hlm] at hproj
    simp only at hproj
    obtain ⟨hmem, hname⟩ := lastMatch_mem hlm
    have hlt : j < e.time.length := buildForecast_ok_bound hbf e hmem
    have hpv : pvalue e j = (e.time.get ⟨j, hlt⟩).parameter.parameterName := by
      unfold pvalue
      rw [List.getElem?_eq_getElem hlt]
      rfl
    refine Or.inr ⟨e, hmem, hname, e.time.get ⟨j, hlt⟩, List.get_mem e.time j hlt, ?_⟩
    rw [hproj, hpv]

/-! ### Concrete fixtures used by witnesses and counterexamples -/

def wxElem : WeatherElement :=
  ⟨"Wx", [⟨"2026-10-11 06:00", "2026-10-11 18:00", ⟨"晴時多雲"⟩⟩]⟩

def popElem : WeatherElement :=
  ⟨"PoP", [⟨"2026-10-11 06:00", "2026-10-11 18:00", ⟨"30"⟩⟩]⟩

def popElemB : WeatherElement :=
  ⟨"PoP", [⟨"2026-10-11 06:00", "2026-10-11 18:00", ⟨"40"⟩⟩]⟩

def minTElem : WeatherElement :=
  ⟨"MinT", [⟨"2026-10-11 06:00", "2026-10-11 18:00", ⟨"22"⟩⟩]⟩

def emptyPopElem : WeatherElement := ⟨"PoP", []⟩

def unknownElem : WeatherElement := ⟨"UVI", []⟩

/-! ### Claim theorems -/

/-- C1 is false as stated: this upstream payload has a non-empty
`weatherElement` collection, yet the normalizer produces no forecasts array at
all — the second element's series is shorter than the first element's, so
`element.time[i]` is `undefined` and reading `.parameter` throws. -/
theorem C1_counterexample_ragged_series :
    [wxElem, emptyPopElem].length = 2 ∧
    normalizeForecasts [wxElem, emptyPopElem]
      = .error "TypeError: Cannot read properties of undefined (reading parameter)" :=
  ⟨rfl, rfl⟩

/-- C1 (amended): for every upstream payload whose `weatherElement` collection
is non-empty and in which every element's time series is at least as long as
the first element's, the normalizer produces a forecasts array whose length
equals the length of the first element's time series, and for every index `i`
the `i`-th record's startTime and endTime are taken from the first element's
`i`-th time period, preserving upstream period order. -/
theorem C1_forecast_count_and_period_times
    (first : WeatherElement) (rest : List WeatherElement)
    (halign : ∀ e ∈ first :: rest, first.time.length ≤ e.time.length) :
    ∃ fs, normalizeForecasts (first :: rest) = .ok fs ∧
      fs.length = first.time.length ∧
      ∀ (i : Nat) (hi : i < fs.length) (hi2 : i < first.time.length),
        (fs.get ⟨i, hi⟩).startTime = (first.time.get ⟨i, hi2⟩).startTime ∧
        (fs.get ⟨i, hi⟩).endTime = (first.time.get ⟨i, hi2⟩).endTime := by
  obtain ⟨fs, hfs⟩ := normalizeForecasts_ok_exists halign
  obtain ⟨hlen, hspec⟩ := normalizeForecasts_ok_spec hfs
  refine ⟨fs, hfs, hlen, ?_⟩
  intro i hi hi2
  have ht := buildForecast_times (hspec i hi hi2)
  simpa [initForecast] using ht

/-- C1 witness: a two-element aligned payload. -/
theorem C1_forecast_count_witness :
    (∀ e ∈ wxElem :: [popElem], wxElem.time.length ≤ e.time.length) ∧
    (∃ fs, normalizeForecasts (wxElem :: [popElem]) = .ok fs ∧
      fs.length = wxElem.time.length ∧
      ∀ (i : Nat) (hi : i < fs.length) (hi2 : i < wxElem.time.length),
        (fs.get ⟨i, hi⟩).startTime = (wxElem.time.get ⟨i, hi2⟩).startTime ∧
        (fs.get ⟨i, hi⟩).endTime = (wxElem.time.get ⟨i, hi2⟩).endTime) :=
  ⟨by decide, C1_forecast_count_and_period_times wxElem [popElem] (by decide)⟩

/-- C3 is false as stated: on malformed input with a missing (empty) element
collection the normalizer does not yield partially empty records — it throws a
TypeError (`weatherElements[0]` is `undefined`), which the handler's
`try`/`catch` turns into a generic 500. -/
theorem C3_counterexample_empty_elements :
    normalizeForecasts []
      = .error "TypeError: Cannot read properties of undefined (reading time)" :=
  rfl

/-- C3 (amended): the normalizer raises no error provided the element
collection is non-empty and every element's time series is at least as long as
the first element's; in particular an empty first series yields an empty
forecasts list, and missing element codes merely leave fields empty.  With an
empty element collection, or with a series shorter than the first element's,
it throws a TypeError that the enclosing handler catches. -/
theorem C3_normalizer_no_throw
    (first : WeatherElement) (rest : List WeatherElement)
    (halign : ∀ e ∈ first :: rest, first.time.length ≤ e.time.length) :
    ∃ fs, normalizeForecasts (first :: rest) = .ok fs ∧
      (first.time = [] → fs = []) := by
  obtain ⟨fs, hfs⟩ := normalizeForecasts_ok_exists halign
  refine ⟨fs, hfs, ?_⟩
  intro hempty
  have hlen := (normalizeForecasts_ok_spec hfs).1
  rw [hempty] at hlen
  exact List.length_eq_zero.mp hlen

/-- C3 witness: a single element with an empty series normalizes to an empty
forecast list without error. -/
theorem C3_no_throw_witness :
    (∀ e ∈ emptyPopElem :: [], emptyPopElem.time.length ≤ e.time.length) ∧
    (∃ fs, normalizeForecasts (emptyPopElem :: []) = .ok fs ∧
      (emptyPopElem.time = [] → fs = [])) :=
  ⟨by decide, C3_normalizer_no_throw emptyPopElem [] (by decide)⟩

/-- C2: the normalizer assigns each element's `i`-th parameter value into the
record field determined by its code — Wx→weather (pass-through), PoP→rain with
`%` appended, MinT→minTemp and MaxT→maxTemp with `°C` appended, CI→comfort and
WS→windSpeed (pass-through); consequently, in any successful output whose
PoP/MinT/MaxT upstream values are numeric strings, a non-empty `rain` is
`<number>%` and non-empty `minTemp`/`maxTemp` are `<number>°C`. -/
theorem C2_element_code_mapping
    (g : Forecast) (v : String)
    (first : WeatherElement) (rest : List WeatherElement) (fs : List Forecast)
    (h : normalizeForecasts (first :: rest) = .ok fs)
    (hnum : ∀ e ∈ first :: rest,
      (e.elementName = "PoP" ∨ e.elementName = "MinT" ∨ e.elementName = "MaxT") →
      ∀ tp ∈ e.time, isNumericString tp.parameter.parameterName = true)
    (f : Forecast) (hf : f ∈ fs) :
    ((applyElement g "Wx" v).weather = v ∧
     (applyElement g "PoP" v).rain = v ++ "%" ∧
     (applyElement g "MinT" v).minTemp = v ++ "°C" ∧
     (applyElement g "MaxT" v).maxTemp = v ++ "°C" ∧
     (applyElement g "CI" v).comfort = v ∧
     (applyElement g "WS" v).windSpeed = v) ∧
    (f.rain = "" ∨ ∃ s, isNumericString s = true ∧ f.rain = s ++ "%") ∧
    (f.minTemp = "" ∨ ∃ s, isNumericString s = true ∧ f.minTemp = s ++ "°C") ∧
    (f.maxTemp = "" ∨ ∃ s, isNumericString s = true ∧ f.maxTemp = s ++ "°C") := by
  refine ⟨⟨by simp [applyElement], by simp [applyElement], by simp [applyElement],
          by simp [applyElement], by simp [applyElement], by simp [applyElement]⟩,
          ?_, ?_, ?_⟩
  · have hr := normalize_field_pattern Forecast.rain "PoP" (fun s => s ++ "%")
      (fun a n w => applyElement_rain a n w) (fun _ => rfl) h hf
    rcases hr with hr | ⟨e, hmem, hname, tp, htp, heq⟩
    · exact Or.inl hr
    · exact Or.inr ⟨tp.parameter.parameterName,
        hnum e hmem (Or.inl hname) tp htp, heq⟩
  · have hr := normalize_field_pattern Forecast.minTemp "MinT" (fun s => s ++ "°C")
      (fun a n w => applyElement_minTemp a n w) (fun _ => rfl) h hf
    rcases hr with hr | ⟨e, hmem, hname, tp, htp, heq⟩
    · exact Or.inl hr
    · exact Or.inr ⟨tp.parameter.parameterName,
        hnum e hmem (Or.inr (Or.inl hname)) tp htp, heq⟩
  · have hr := normalize_field_pattern Forecast.maxTemp "MaxT" (fun s => s ++ "°C")
      (fun a n w => applyElement_maxTemp a n w) (fun _ => rfl) h hf
    rcases hr with hr | ⟨e, hmem, hname, tp, htp, heq⟩
    · exact Or.inl hr
    · exact Or.inr ⟨tp.parameter.parameterName,
        hnum e hmem (Or.inr (Or.inr hname)) tp htp, heq⟩

/-- Output of normalizing `[wxElem, popElem, minTElem]`. -/
def sampleFs : List Forecast :=
  [⟨"2026-10-11 06:00", "2026-10-11 18:00", "晴時多雲", "30%", "22°C", "", "", ""⟩]

/-- C2 witness: a three-element payload with numeric PoP and MinT values. -/
theorem C2_mapping_witness :
    normalizeForecasts (wxElem :: [popElem, minTElem]) = .ok sampleFs ∧
    (∀ e ∈ wxElem :: [popElem, minTElem],
      (e.elementName = "PoP" ∨ e.elementName = "MinT" ∨ e.elementName = "MaxT") →
      ∀ tp ∈ e.time, isNumericString tp.parameter.parameterName = true) ∧
    (((applyElement (initForecast defaultPeriod) "Wx" "7").weather = "7" ∧
      (applyElement (initForecast defaultPeriod) "PoP" "7").rain = "7" ++ "%" ∧
      (applyElement (initForecast defaultPeriod) "MinT" "7").minTemp = "7" ++ "°C" ∧
      (applyElement (initForecast defaultPeriod) "MaxT" "7").maxTemp = "7" ++ "°C" ∧
      (applyElement (initForecast defaultPeriod) "CI" "7").comfort = "7" ∧
      (applyElement (initForecast defaultPeriod) "WS" "7").windSpeed = "7") ∧
     ((⟨"2026-10-11 06:00", "2026-10-11 18:00", "晴時多雲", "30%", "22°C", "", "", ""⟩ :
        Forecast).rain = "" ∨
      ∃ s, isNumericString s = true ∧
        (⟨"2026-10-11 06:00", "2026-10-11 18:00", "晴時多雲", "30%", "22°C", "", "", ""⟩ :
          Forecast).rain = s ++ "%") ∧
     ((⟨"2026-10-11 06:00", "2026-10-11 18:00", "晴時多雲", "30%", "22°C", "", "", ""⟩ :
        Forecast).minTemp = "" ∨
      ∃ s, isNumericString s = true ∧
        (⟨"2026-10-11 06:00", "2026-10-11 18:00", "晴時多雲", "30%", "22°C", "", "", ""⟩ :
          Forecast).minTemp = s ++ "°C") ∧
     ((⟨"2026-10-11 06:00", "2026-10-11 18:00", "晴時多雲", "30%", "22°C", "", "", ""⟩ :
        Forecast).maxTemp = "" ∨
      ∃ s, isNumericString s = true ∧
        (⟨"2026-10-11 06:00", "2026-10-11 18:00", "晴時多雲", "30%", "22°C", "", "", ""⟩ :
          Forecast).maxTemp = s ++ "°C")) :=
  ⟨rfl, by decide,
   C2_element_code_mapping (initForecast defaultPeriod) "7" wxElem [popElem, minTElem]
     sampleFs rfl (by decide) _ (by decide)⟩

/-- C7 is false as stated: an element with the unrecognized code "UVI" is not
ignored without error — its series is shorter than the first element's, so
`element.time[i]` is `undefined` and the normalizer throws before reaching the
`switch`. -/
theorem C7_counterexample_unrecognized_short_series :
    (unknownElem.elementName ≠ "Wx" ∧ unknownElem.elementName ≠ "PoP" ∧
     unknownElem.elementName ≠ "MinT" ∧ unknownElem.elementName ≠ "MaxT" ∧
     unknownElem.elementName ≠ "CI" ∧ unknownElem.elementName ≠ "WS") ∧
    normalizeForecasts [wxElem, unknownElem]
      = .error "TypeError: Cannot read properties of undefined (reading parameter)" :=
  ⟨by decide, rfl⟩

/-- C7 (amended): elements with unrecognized codes whose series reach the
current period index leave the record unchanged (the `switch` ignores them),
and in every successful output each record field for which no element with the
matching code exists equals the empty string.  An unrecognized element whose
series is shorter than the first element's still makes the normalizer throw,
as the per-period value is read before the code is examined. -/
theorem C7_unrecognized_ignored_and_empty_defaults
    (g : Forecast) (n v : String)
    (hn1 : n ≠ "Wx") (hn2 : n ≠ "PoP") (hn3 : n ≠ "MinT") (hn4 : n ≠ "MaxT")
    (hn5 : n ≠ "CI") (hn6 : n ≠ "WS")
    (first : WeatherElement) (rest : List WeatherElement) (fs : List Forecast)
    (h : normalizeForecasts (first :: rest) = .ok fs)
    (f : Forecast) (hf : f ∈ fs) :
    applyElement g n v = g ∧
    ((∀ e ∈ first :: rest, e.elementName ≠ "Wx") → f.weather = "") ∧
    ((∀ e ∈ first :: rest, e.elementName ≠ "PoP") → f.rain = "") ∧
    ((∀ e ∈ first :: rest, e.elementName ≠ "MinT") → f.minTemp = "") ∧
    ((∀ e ∈ first :: rest, e.elementName ≠ "MaxT") → f.maxTemp = "") ∧
    ((∀ e ∈ first :: rest, e.elementName ≠ "CI") → f.comfort = "") ∧
    ((∀ e ∈ first :: rest, e.elementName ≠ "WS") → f.windSpeed = "") := by
  refine ⟨by unfold applyElement; simp [hn1, hn2, hn3, hn4, hn5, hn6], ?_, ?_, ?_, ?_, ?_, ?_⟩
  · exact fun habs => normalize_field_absent Forecast.weather "Wx" id
      (fun a m w => applyElement_weather a m w) (fun _ => rfl) h habs hf
  · exact fun habs => normalize_field_absent Forecast.rain "PoP" (fun s => s ++ "%")
      (fun a m w => applyElement_rain a m w) (fun _ => rfl) h habs hf
  · exact fun habs => normalize_field_absent Forecast.minTemp "MinT" (fun s => s ++ "°C")
      (fun a m w => applyElement_minTemp a m w) (fun _ => rfl) h habs hf
  · exact fun habs => normalize_field_absent Forecast.maxTemp "MaxT" (fun s => s ++ "°C")
      (fun a m w => applyElement_maxTemp a m w) (fun _ => rfl) h habs hf
  · exact fun habs => normalize_field_absent Forecast.comfort "CI" id
      (fun a m w => applyElement_comfort a m w) (fun _ => rfl) h habs hf
  · exact fun habs => normalize_field_absent Forecast.windSpeed "WS" id
      (fun a m w => applyElement_windSpeed a m w) (fun _ => rfl) h habs hf

/-- An unrecognized element whose series is aligned with the first element's. -/
def unknownElemAligned : WeatherElement :=
  ⟨"UVI", [⟨"2026-10-11 06:00", "2026-10-11 18:00", ⟨"5"⟩⟩]⟩

/-- Output of normalizing `[wxElem, unknownElemAligned]`. -/
def sampleFsWxOnly : List Forecast :=
  [⟨"2026-10-11 06:00", "2026-10-11 18:00", "晴時多雲", "", "", "", "", ""⟩]

/-- C7 witness: the aligned "UVI" element is ignored and all fields with no
matching element stay empty. -/
theorem C7_unrecognized_ignored_witness :
    ("UVI" ≠ "Wx" ∧ "UVI" ≠ "PoP" ∧ "UVI" ≠ "MinT" ∧ "UVI" ≠ "MaxT" ∧
     "UVI" ≠ "CI" ∧ "UVI" ≠ "WS") ∧
    normalizeForecasts (wxElem :: [unknownElemAligned]) = .ok sampleFsWxOnly ∧
    (applyElement (initForecast defaultPeriod) "UVI" "5" = initForecast defaultPeriod ∧
     ((∀ e ∈ wxElem :: [unknownElemAligned], e.elementName ≠ "Wx") →
        (⟨"2026-10-11 06:00", "2026-10-11 18:00", "晴時多雲", "", "", "", "", ""⟩ :
          Forecast).weather = "") ∧
     ((∀ e ∈ wxElem :: [unknownElemAligned], e.elementName ≠ "PoP") →
        (⟨"2026-10-11 06:00", "2026-10-11 18:00", "晴時多雲", "", "", "", "", ""⟩ :
          Forecast).rain = "") ∧
     ((∀ e ∈ wxElem :: [unknownElemAligned], e.elementName ≠ "MinT") →
        (⟨"2026-10-11 06:00", "2026-10-11 18:00", "晴時多雲", "", "", "", "", ""⟩ :
          Forecast).minTemp = "") ∧
     ((∀ e ∈ wxElem :: [unknownElemAligned], e.elementName ≠ "MaxT") →
        (⟨"2026-10-11 06:00", "2026-10-11 18:00", "晴時多雲", "", "", "", "", ""⟩ :
          Forecast).maxTemp = "") ∧
     ((∀ e ∈ wxElem :: [unknownElemAligned], e.elementName ≠ "CI") →
        (⟨"2026-10-11 06:00", "2026-10-11 18:00", "晴時多雲", "", "", "", "", ""⟩ :
          Forecast).comfort = "") ∧
     ((∀ e ∈ wxElem :: [unknownElemAligned], e.elementName ≠ "WS") →
        (⟨"2026-10-11 06:00", "2026-10-11 18:00", "晴時多雲", "", "", "", "", ""⟩ :
          Forecast).windSpeed = "")) :=
  ⟨by decide, rfl,
   C7_unrecognized_ignored_and_empty_defaults (initForecast defaultPeriod) "UVI" "5"
     (by decide) (by decide) (by decide) (by decide) (by decide) (by decide)
     wxElem [unknownElemAligned] sampleFsWxOnly rfl _ (by decide)⟩

/-- C10: when several elements carry the same recognized code, the value that
survives in every record field is the one from the element occurring last in
the collection's order — the `switch` assignments run left to right, so the
last write wins (`lastMatch` picks the last element with the given code). -/
theorem C10_last_element_wins
    (first : WeatherElement) (rest : List WeatherElement) (fs : List Forecast)
    (h : normalizeForecasts (first :: rest) = .ok fs)
    (j : Nat) (hj : j < fs.length) (hj2 : j < first.time.length) :
    (∀ e, lastMatch "Wx" (first :: rest) = some e →
      (fs.get ⟨j, hj⟩).weather = pvalue e j) ∧
    (∀ e, lastMatch "PoP" (first :: rest) = some e →
      (fs.get ⟨j, hj⟩).rain = pvalue e j ++ "%") ∧
    (∀ e, lastMatch "MinT" (first :: rest) = some e →
      (fs.get ⟨j, hj⟩).minTemp = pvalue e j ++ "°C") ∧
    (∀ e, lastMatch "MaxT" (first :: rest) = some e →
      (fs.get ⟨j, hj⟩).maxTemp = pvalue e j ++ "°C") ∧
    (∀ e, lastMatch "CI" (first :: rest) = some e →
      (fs.get ⟨j, hj⟩).comfort = pvalue e j) ∧
    (∀ e, lastMatch "WS" (first :: rest) = some e →
      (fs.get ⟨j, hj⟩).windSpeed = pvalue e j) := by
  have hspec := (normalizeForecasts_ok_spec h).2 j hj hj2
  refine ⟨?_, ?_, ?_, ?_, ?_, ?_⟩ <;> intro e he
  · have hp := buildForecast_proj Forecast.weather "Wx" id
      (fun a m w => applyElement_weather a m w) hspec
    rw [he] at hp
    simpa using hp
  · have hp := buildForecast_proj Forecast.rain "PoP" (fun s => s ++ "%")
      (fun a m w => applyElement_rain a m w) hspec
    rw [he] at hp
    simpa using hp
  · have hp := buildForecast_proj Forecast.minTemp "MinT" (fun s => s ++ "°C")
      (fun a m w => applyElement_minTemp a m w) hspec
    rw [he] at hp
    simpa using hp
  · have hp := buildForecast_proj Forecast.maxTemp "MaxT" (fun s => s ++ "°C")
      (fun a m w => applyElement_maxTemp a m w) hspec
    rw [he] at hp
    simpa using hp
  · have hp := buildForecast_proj Forecast.comfort "CI" id
      (fun a m w => applyElement_comfort a m w) hspec
    rw [he] at hp
    simpa using hp
  · have hp := buildForecast_proj Forecast.windSpeed "WS" id
      (fun a m w => applyElement_windSpeed a m w) hspec
    rw [he] at hp
    simpa using hp

/-- Output of normalizing `[wxElem, popElem, popElemB]`: the second PoP value
wins. -/
def sampleFsDupPop : List Forecast :=
  [⟨"2026-10-11 06:00", "2026-10-11 18:00", "晴時多雲", "40%", "", "", "", ""⟩]

/-- C10 witness: two PoP elements (values "30" and "40"); the later one's value
is the one in the output. -/
theorem C10_last_element_wins_witness :
    normalizeForecasts (wxElem :: [popElem, popElemB]) = .ok sampleFsDupPop ∧
    lastMatch "PoP" (wxElem :: [popElem, popElemB]) = some popElemB ∧
    pvalue popElemB 0 = "40" ∧
    ((∀ e, lastMatch "Wx" (wxElem :: [popElem, popElemB]) = some e →
       (sampleFsDupPop.get ⟨0, by decide⟩).weather = pvalue e 0) ∧
     (∀ e, lastMatch "PoP" (wxElem :: [popElem, popElemB]) = some e →
       (sampleFsDupPop.get ⟨0, by decide⟩).rain = pvalue e 0 ++ "%") ∧
     (∀ e, lastMatch "MinT" (wxElem :: [popElem, popElemB]) = some e →
       (sampleFsDupPop.get ⟨0, by decide⟩).minTemp = pvalue e 0 ++ "°C") ∧
     (∀ e, lastMatch "MaxT" (wxElem :: [popElem, popElemB]) = some e →
       (sampleFsDupPop.get ⟨0, by decide⟩).maxTemp = pvalue e 0 ++ "°C") ∧
     (∀ e, lastMatch "CI" (wxElem :: [popElem, popElemB]) = some e →
       (sampleFsDupPop.get ⟨0, by decide⟩).comfort = pvalue e 0) ∧
     (∀ e, lastMatch "WS" (wxElem :: [popElem, popElemB]) = some e →
       (sampleFsDupPop.get ⟨0, by decide⟩).windSpeed = pvalue e 0)) :=
  ⟨rfl, by decide, by decide,
   C10_last_element_wins wxElem [popElem, popElemB] sampleFsDupPop rfl 0
     (by decide) (by decide)⟩

/-- C4: when the upstream's location array yields no first entry, the handler
responds 404 with an error message that names the requested city. -/
theorem C4_no_location_404 (city : String) (hcity : city ≠ "")
    (key : Option String) (hkey : truthy key = true) (desc : String) :
    (getWeatherByCity city key (.success ⟨⟨desc, []⟩⟩)).response.status = 404 ∧
    (getWeatherByCity city key (.success ⟨⟨desc, []⟩⟩)).response.body
      = .err "查無資料" ("無法取得 " ++ city ++ " 天氣資料，請確認城市名稱是否正確") ∧
    ∃ pre post, (getWeatherByCity city key (.success ⟨⟨desc, []⟩⟩)).response.body
      = .err "查無資料" (pre ++ city ++ post) := by
  have hr : getWeatherByCity city key (.success ⟨⟨desc, []⟩⟩)
      = ⟨⟨404, .err "查無資料"
          ("無法取得 " ++ city ++ " 天氣資料，請確認城市名稱是否正確")⟩, true⟩ := by
    unfold getWeatherByCity
    rw [if_neg hcity, hkey]
    rfl
  rw [hr]
  exact ⟨rfl, rfl, "無法取得 ", " 天氣資料，請確認城市名稱是否正確", rfl⟩

/-- C4 witness. -/
theorem C4_no_location_404_witness :
    (getWeatherByCity "臺北市" (some "k") (.success ⟨⟨"d", []⟩⟩)).response.status = 404 ∧
    (getWeatherByCity "臺北市" (some "k") (.success ⟨⟨"d", []⟩⟩)).response.body
      = .err "查無資料" ("無法取得 " ++ "臺北市" ++ " 天氣資料，請確認城市名稱是否正確") ∧
    ∃ pre post, (getWeatherByCity "臺北市" (some "k") (.success ⟨⟨"d", []⟩⟩)).response.body
      = .err "查無資料" (pre ++ "臺北市" ++ post) :=
  C4_no_location_404 "臺北市" (by decide) (some "k") (by decide) "d"

/-- C5: when the upstream credential is falsy (absent or empty), the handler
responds 500 with the configuration-error message — which differs from the
generic failure message — for every city and without consulting the upstream
at all (the result is the same for every upstream outcome and the
`axios.get` call is never reached). -/
theorem C5_missing_key_500 (city : String) (hcity : city ≠ "")
    (key : Option String) (hkey : truthy key = false) (upstream : UpstreamOutcome) :
    (getWeatherByCity city key upstream).response.status = 500 ∧
    (getWeatherByCity city key upstream).response.body
      = .err "伺服器設定錯誤" "請在 .env 檔案中設定 CWA_API_KEY" ∧
    (getWeatherByCity city key upstream).upstreamCalled = false ∧
    ("請在 .env 檔案中設定 CWA_API_KEY" : String) ≠ "無法取得天氣資料，請稍後再試" := by
  have hr : getWeatherByCity city key upstream
      = ⟨⟨500, .err "伺服器設定錯誤" "請在 .env 檔案中設定 CWA_API_KEY"⟩, false⟩ := by
    unfold getWeatherByCity
    rw [if_neg hcity, hkey]
    rfl
  rw [hr]
  exact ⟨rfl, rfl, rfl, by decide⟩

/-- C5 witness: missing key, arbitrary upstream (network error), city set. -/
theorem C5_missing_key_500_witness :
    (getWeatherByCity "高雄市" none .networkError).response.status = 500 ∧
    (getWeatherByCity "高雄市" none .networkError).response.body
      = .err "伺服器設定錯誤" "請在 .env 檔案中設定 CWA_API_KEY" ∧
    (getWeatherByCity "高雄市" none .networkError).upstreamCalled = false ∧
    ("請在 .env 檔案中設定 CWA_API_KEY" : String) ≠ "無法取得天氣資料，請稍後再試" :=
  C5_missing_key_500 "高雄市" (by decide) none (by decide) .networkError

/-- Reduction of the handler on a successful upstream payload whose location
array has a first entry. -/
theorem getWeatherByCity_success_cons (city : String) (hcity : city ≠ "")
    (key : Option String) (hkey : truthy key = true) (d : String)
    (loc0 : LocationData) (r : List LocationData) :
    getWeatherByCity city key (.success ⟨⟨d, loc0 :: r⟩⟩)
      = match normalizeForecasts loc0.weatherElement with
        | .error _ => ⟨⟨500, .err "伺服器錯誤" "無法取得天氣資料，請稍後再試"⟩, true⟩
        | .ok fs => ⟨⟨200, .ok ⟨loc0.locationName, d, fs⟩⟩, true⟩ := by
  unfold getWeatherByCity
  rw [if_neg hcity, hkey]
  rfl

/-- C6: a failed upstream call with an HTTP error response is answered with
exactly the upstream's status code, the upstream's message (or the fallback
message when it is absent or empty) and the raw upstream error body in the
details field; a failure with no response — or an exception thrown inside the
handler, such as the normalizer's TypeError — yields 500 with the generic
message. -/
theorem C6_upstream_error_propagation (city : String) (hcity : city ≠ "")
    (key : Option String) (hkey : truthy key = true)
    (resp : UpstreamErrorResponse) (_hst : ¬(200 ≤ resp.status ∧ resp.status < 300)) :
    (getWeatherByCity city key (.httpError resp)).response.status = resp.status ∧
    (getWeatherByCity city key (.httpError resp)).response.body
      = .errDetails "CWA API 錯誤" (messageOrFallback resp.data.message) resp.data ∧
    (∀ m, resp.data.message = some m → m ≠ "" → messageOrFallback resp.data.message = m) ∧
    (resp.data.message = none → messageOrFallback resp.data.message = "無法取得天氣資料") ∧
    (getWeatherByCity city key .networkError).response
      = ⟨500, .err "伺服器錯誤" "無法取得天氣資料，請稍後再試"⟩ ∧
    (∀ (d locName : String) (locs : List LocationData),
      (getWeatherByCity city key (.success ⟨⟨d, ⟨locName, []⟩ :: locs⟩⟩)).response
        = ⟨500, .err "伺服器錯誤" "無法取得天氣資料，請稍後再試"⟩) := by
  have h1 : getWeatherByCity city key (.httpError resp)
      = ⟨⟨resp.status,
          .errDetails "CWA API 錯誤" (messageOrFallback resp.data.message) resp.data⟩, true⟩ := by
    unfold getWeatherByCity
    rw [if_neg hcity, hkey]
    rfl
  have h2 : getWeatherByCity city key .networkError
      = ⟨⟨500, .err "伺服器錯誤" "無法取得天氣資料，請稍後再試"⟩, true⟩ := by
    unfold getWeatherByCity
    rw [if_neg hcity, hkey]
    rfl
  refine ⟨by rw [h1], by rw [h1], ?_, ?_, by rw [h2], ?_⟩
  · intro m hm hne
    rw [hm]
    unfold messageOrFallback
    simp [hne]
  · intro hm
    rw [hm]
    rfl
  · intro d locName locs
    rw [getWeatherByCity_success_cons city hcity key hkey d ⟨locName, []⟩ locs]
    rfl

/-- C6 witness: a 429 upstream error with a message, a network error, and an
internal normalizer throw. -/
theorem C6_upstream_error_witness :
    (getWeatherByCity "臺北市" (some "k")
      (.httpError ⟨429, ⟨some "rate limited", "raw-body"⟩⟩)).response.status = 429 ∧
    (getWeatherByCity "臺北市" (some "k")
      (.httpError ⟨429, ⟨some "rate limited", "raw-body"⟩⟩)).response.body
      = .errDetails "CWA API 錯誤"
          (messageOrFallback (some "rate limited")) ⟨some "rate limited", "raw-body"⟩ ∧
    (∀ m, (some "rate limited" : Option String) = some m → m ≠ "" →
      messageOrFallback (some "rate limited") = m) ∧
    ((some "rate limited" : Option String) = none →
      messageOrFallback (some "rate limited") = "無法取得天氣資料") ∧
    (getWeatherByCity "臺北市" (some "k") .networkError).response
      = ⟨500, .err "伺服器錯誤" "無法取得天氣資料，請稍後再試"⟩ ∧
    (∀ (d locName : String) (locs : List LocationData),
      (getWeatherByCity "臺北市" (some "k")
        (.success ⟨⟨d, ⟨locName, []⟩ :: locs⟩⟩)).response
        = ⟨500, .err "伺服器錯誤" "無法取得天氣資料，請稍後再試"⟩) :=
  C6_upstream_error_propagation "臺北市" (by decide) (some "k") (by decide)
    ⟨429, ⟨some "rate limited", "raw-body"⟩⟩ (by decide)

/-- C8: `/api/cities` returns `success: true` with exactly the fixed 22-entry
location list, in its definition order; the handler is a constant, so the
answer is identical across calls. -/
theorem C8_cities_fixed_list :
    citiesHandler.success = true ∧
    citiesHandler.data
      = ["臺北市", "新北市", "桃園市", "臺中市", "臺南市", "高雄市",
         "基隆市", "新竹市", "新竹縣", "苗栗縣", "彰化縣", "南投縣",
         "雲林縣", "嘉義市", "嘉義縣", "屏東縣", "宜蘭縣", "花蓮縣",
         "臺東縣", "澎湖縣", "金門縣", "連江縣"] ∧
    citiesHandler.data.length = 22 :=
  ⟨rfl, rfl, rfl⟩

/-- C9: in every successful response the `city` field is the `locationName` of
the first entry of the upstream's location array — whatever the requested city
string was — and the handler's entire result is unchanged by any further
location entries. -/
theorem C9_city_from_first_location (city : String) (hcity : city ≠ "")
    (key : Option String) (hkey : truthy key = true)
    (d : String) (loc0 : LocationData) (r1 r2 : List LocationData) :
    (∀ wd, (getWeatherByCity city key (.success ⟨⟨d, loc0 :: r1⟩⟩)).response.body = .ok wd →
      wd.city = loc0.locationName) ∧
    getWeatherByCity city key (.success ⟨⟨d, loc0 :: r1⟩⟩)
      = getWeatherByCity city key (.success ⟨⟨d, loc0 :: r2⟩⟩) := by
  constructor
  · intro wd hwd
    rw [getWeatherByCity_success_cons city hcity key hkey d loc0 r1] at hwd
    cases hn : normalizeForecasts loc0.weatherElement with
    | error msg =>
      rw [hn] at hwd
      exact absurd hwd (by simp)
    | ok fs =>
      rw [hn] at hwd
      simp only [ResBody.ok.injEq] at hwd
      rw [← hwd]
  · rw [getWeatherByCity_success_cons city hcity key hkey d loc0 r1,
        getWeatherByCity_success_cons city hcity key hkey d loc0 r2]

/-- C9 witness: the requested city is 新北市 but the first location entry names
臺北市; the response carries 臺北市, and a differing location tail changes
nothing. -/
theorem C9_city_from_first_location_witness :
    (∀ wd, (getWeatherByCity "新北市" (some "k")
        (.success ⟨⟨"d", ⟨"臺北市", [wxElem]⟩ :: []⟩⟩)).response.body = .ok wd →
      wd.city = (⟨"臺北市", [wxElem]⟩ : LocationData).locationName) ∧
    getWeatherByCity "新北市" (some "k")
        (.success ⟨⟨"d", ⟨"臺北市", [wxElem]⟩ :: []⟩⟩)
      = getWeatherByCity "新北市" (some "k")
        (.success ⟨⟨"d", ⟨"臺北市", [wxElem]⟩ :: [⟨"高雄市", []⟩]⟩⟩) :=
  C9_city_from_first_location "新北市" (by decide) (some "k") (by decide)
    "d" ⟨"臺北市", [wxElem]⟩ [] [⟨"高雄市", []⟩]
